import Mathlib

/-!
Shallow embedding of the order-processing saga core of the
Microservices-project repository, together with proofs checking the
natural-language specification against the code.

Conventions of the embedding:
* Python UUIDs are modelled as natural numbers.  Fresh `uuid4()` values are
  passed to each function as explicit parameters.
* Python floats (prices, amounts) are modelled as integers; no claim in
  scope depends on fractional arithmetic.
* A SQLAlchemy table is modelled as a Lean list of rows, in insertion /
  `created_at` order (source queries order by `created_at` ascending).
  `session.add` appends, in-place mutation of a fetched row maps over the
  list replacing the matching row(s), `scalar_one_or_none` is a first-match
  lookup.
* A handler that in Python mutates the session and commits once is modelled
  as a pure function from the table state (plus the triggering event and the
  fresh ids it allocates) to the new table state together with the list of
  events it wrote to the outbox via `save_event_to_outbox`.
-/

abbrev UUID := Nat

/-- Money values (Python `float`) are modelled as integers. -/
abbrev Money := Int

/-- An item of an inventory reserve request: `{"product_id", "quantity"}`
(`shared/events.py`, `InventoryReserveRequestedEvent.items`). -/
structure ReserveItem where
  product_id : UUID
  quantity : Int
deriving DecidableEq

/-- An order item `{"product_id", "quantity", "price"}`
(`order_service/app.py`, `OrderItem`). -/
structure OrderItem where
  product_id : UUID
  quantity : Int
  price : Money
deriving DecidableEq

/-- An entry of `unavailable_items` built by the inventory participant:
`{"product_id", "requested", "available"}` (`inventory_service/app.py`). -/
structure UnavailableItem where
  product_id : UUID
  requested : Int
  available : Int
deriving DecidableEq

/-- Event routing keys (`shared/events.py`, `EventType`), restricted to the
saga events the claims mention. -/
inductive EventType where
  | orderPlaced
  | orderConfirmed
  | orderFailed
  | inventoryReserveRequested
  | inventoryReserved
  | inventoryReserveFailed
  | inventoryReleased
  | paymentRequested
  | paymentProcessed
  | paymentFailed
deriving DecidableEq

/-- Type-specific payload of an emitted event, one constructor per event
class of `shared/events.py`. -/
inductive EventData where
  | orderPlaced (customer_id : UUID) (items : List OrderItem)
      (total_amount : Money)
  | orderConfirmed (order_id : UUID)
  | orderFailed (order_id : UUID) (reason : String) (failed_step : String)
  | inventoryReserveRequested (order_id : UUID) (items : List ReserveItem)
  | inventoryReserved (order_id : UUID) (reservation_id : UUID)
      (items : List ReserveItem)
  | inventoryReserveFailed (order_id : UUID) (reason : String)
      (unavailable_items : List UnavailableItem)
  | inventoryReleased (order_id : UUID) (reservation_id : UUID)
  | paymentRequested (order_id : UUID) (customer_id : UUID) (amount : Money)
  | paymentProcessed (order_id : UUID) (transaction_id : UUID)
      (amount : Money) (currency : String)
  | paymentFailed (order_id : UUID) (reason : String)
      (error_code : Option String)
deriving DecidableEq

/-- Routing key of a payload (the `event_type` class attribute). -/
def EventData.etype : EventData → EventType
  | .orderPlaced .. => .orderPlaced
  | .orderConfirmed .. => .orderConfirmed
  | .orderFailed .. => .orderFailed
  | .inventoryReserveRequested .. => .inventoryReserveRequested
  | .inventoryReserved .. => .inventoryReserved
  | .inventoryReserveFailed .. => .inventoryReserveFailed
  | .inventoryReleased .. => .inventoryReleased
  | .paymentRequested .. => .paymentRequested
  | .paymentProcessed .. => .paymentProcessed
  | .paymentFailed .. => .paymentFailed

/-- The common event envelope (`shared/events.py`, `BaseEvent`): identity,
tracing ids and the typed payload.  `timestamp`, `version` and `metadata`
carry no claim-relevant information and are omitted. -/
structure Event where
  event_id : UUID
  aggregate_id : UUID
  correlation_id : UUID
  causation_id : Option UUID
  data : EventData
deriving DecidableEq

/-! ### Typed incoming messages

Each consumer receives a deserialized event of the class it subscribed to;
one structure per handler input. -/

structure InventoryReservedMsg where
  event_id : UUID
  aggregate_id : UUID
  correlation_id : UUID
  order_id : UUID
  reservation_id : UUID
  items : List ReserveItem
deriving DecidableEq

structure InventoryReserveFailedMsg where
  event_id : UUID
  aggregate_id : UUID
  correlation_id : UUID
  order_id : UUID
  reason : String
  unavailable_items : List UnavailableItem
deriving DecidableEq

structure InventoryReserveRequestedMsg where
  event_id : UUID
  aggregate_id : UUID
  correlation_id : UUID
  order_id : UUID
  items : List ReserveItem
deriving DecidableEq

structure InventoryReleasedMsg where
  event_id : UUID
  aggregate_id : UUID
  correlation_id : UUID
  order_id : UUID
  reservation_id : UUID
deriving DecidableEq

structure PaymentRequestedMsg where
  event_id : UUID
  aggregate_id : UUID
  correlation_id : UUID
  order_id : UUID
  customer_id : UUID
  amount : Money
  currency : String
deriving DecidableEq

structure PaymentProcessedMsg where
  event_id : UUID
  aggregate_id : UUID
  correlation_id : UUID
  order_id : UUID
  transaction_id : UUID
  amount : Money
deriving DecidableEq

structure PaymentFailedMsg where
  event_id : UUID
  aggregate_id : UUID
  correlation_id : UUID
  order_id : UUID
  reason : String
deriving DecidableEq

/-! ### Order service data model (`order_service/models.py`) -/

inductive OrderStatus where
  | pending
  | inventory_reserved
  | payment_processing
  | confirmed
  | cancelled
  | failed
deriving DecidableEq

inductive SagaStep where
  | order_placed
  | inventory_reservation
  | payment_processing
  | shipping_scheduling
  | order_confirmation
deriving DecidableEq

structure Order where
  id : UUID
  customer_id : UUID
  status : OrderStatus
  current_saga_step : SagaStep
  items : List OrderItem
  total_amount : Money
  correlation_id : UUID
  reservation_id : Option UUID
  transaction_id : Option UUID
  error_message : Option String
deriving DecidableEq

/-- A `saga_logs` row (`SagaOrchestrator._log_saga_step`). -/
structure SagaLogEntry where
  order_id : UUID
  correlation_id : UUID
  step : String
  event_type : EventType
  event_id : UUID
  status : String
  error_message : Option String
deriving DecidableEq

abbrev OrdersDB := List Order

/-- `SagaOrchestrator._get_order`: first row with the given id. -/
def getOrder : OrdersDB → UUID → Option Order
  | [], _ => none
  | o :: rest, oid => if o.id = oid then some o else getOrder rest oid

/-- In-place mutation of the fetched order row: every row with the given id
is replaced by the updated record. -/
def updateOrder (db : OrdersDB) (oid : UUID) (o' : Order) : OrdersDB :=
  db.map fun o => if o.id = oid then o' else o

/-- Result of one orchestrator handler transaction: the orders table, the
events written to the outbox, and the saga-log rows appended. -/
structure OrchResult where
  db : OrdersDB
  outbox : List Event
  logs : List SagaLogEntry
deriving DecidableEq

/-! ### Saga orchestrator (`order_service/saga_orchestrator.py`) -/

/-- `SagaOrchestrator.start_order_saga`: create the order, write
`order.placed` and `inventory.reserve.requested` to the outbox, advance the
saga step, log both steps.  The fresh uuids drawn by the source are the
explicit parameters `orderId`, `correlationId`, `placedEventId`,
`reserveEventId`. -/
def startOrderSaga (customer_id : UUID) (items : List OrderItem)
    (total_amount : Money) (orderId correlationId placedEventId
    reserveEventId : UUID) : Order × List Event × List SagaLogEntry :=
  let order : Order :=
    { id := orderId
      customer_id := customer_id
      status := .pending
      current_saga_step := .order_placed
      items := items
      total_amount := total_amount
      correlation_id := correlationId
      reservation_id := none
      transaction_id := none
      error_message := none }
  let placed : Event :=
    { event_id := placedEventId
      aggregate_id := orderId
      correlation_id := correlationId
      causation_id := none
      data := .orderPlaced customer_id items total_amount }
  let reserveReq : Event :=
    { event_id := reserveEventId
      aggregate_id := orderId
      correlation_id := correlationId
      causation_id := some placedEventId
      data := .inventoryReserveRequested orderId
        (items.map fun it => ⟨it.product_id, it.quantity⟩) }
  let order' := { order with current_saga_step := SagaStep.inventory_reservation }
  (order', [placed, reserveReq],
    [⟨orderId, correlationId, "order_placed", .orderPlaced, placedEventId,
      "completed", none⟩,
     ⟨orderId, correlationId, "inventory_reservation",
      .inventoryReserveRequested, reserveEventId, "started", none⟩])

/-- `SagaOrchestrator.handle_inventory_reserved`: fetch the order (drop the
event if absent), set status/reservation_id/saga step, log, request payment
with causation set to the triggering event. -/
def handleInventoryReserved (db : OrdersDB) (m : InventoryReservedMsg)
    (freshPaymentEventId : UUID) : OrchResult :=
  match getOrder db m.order_id with
  | none => ⟨db, [], []⟩
  | some order =>
    let order' := { order with
      status := OrderStatus.inventory_reserved
      reservation_id := some m.reservation_id
      current_saga_step := SagaStep.payment_processing }
    let paymentEvent : Event :=
      { event_id := freshPaymentEventId
        aggregate_id := order.id
        correlation_id := m.correlation_id
        causation_id := some m.event_id
        data := .paymentRequested order.id order.customer_id
          order.total_amount }
    ⟨updateOrder db m.order_id order', [paymentEvent],
      [⟨order.id, m.correlation_id, "inventory_reservation",
        .inventoryReserved, m.event_id, "completed", none⟩,
       ⟨order.id, m.correlation_id, "payment_processing", .paymentRequested,
        freshPaymentEventId, "started", none⟩]⟩

/-- `SagaOrchestrator.handle_inventory_reserve_failed`: mark the order
failed with the event's reason and emit `order.failed` for the
`inventory_reservation` step. -/
def handleInventoryReserveFailed (db : OrdersDB)
    (m : InventoryReserveFailedMsg) (freshFailedEventId : UUID) :
    OrchResult :=
  match getOrder db m.order_id with
  | none => ⟨db, [], []⟩
  | some order =>
    let order' := { order with
      status := OrderStatus.failed
      error_message := some m.reason }
    let failedEvent : Event :=
      { event_id := freshFailedEventId
        aggregate_id := order.id
        correlation_id := m.correlation_id
        causation_id := some m.event_id
        data := .orderFailed order.id m.reason "inventory_reservation" }
    ⟨updateOrder db m.order_id order', [failedEvent],
      [⟨order.id, m.correlation_id, "inventory_reservation",
        .inventoryReserveFailed, m.event_id, "failed", some m.reason⟩]⟩

/-- `SagaOrchestrator.handle_payment_processed`: confirm the order, record
the transaction id, emit `order.confirmed`. -/
def handlePaymentProcessed (db : OrdersDB) (m : PaymentProcessedMsg)
    (freshConfirmedEventId : UUID) : OrchResult :=
  match getOrder db m.order_id with
  | none => ⟨db, [], []⟩
  | some order =>
    let order' := { order with
      status := OrderStatus.confirmed
      transaction_id := some m.transaction_id
      current_saga_step := SagaStep.order_confirmation }
    let confirmedEvent : Event :=
      { event_id := freshConfirmedEventId
        aggregate_id := order.id
        correlation_id := m.correlation_id
        causation_id := some m.event_id
        data := .orderConfirmed order.id }
    ⟨updateOrder db m.order_id order', [confirmedEvent],
      [⟨order.id, m.correlation_id, "payment_processing", .paymentProcessed,
        m.event_id, "completed", none⟩,
       ⟨order.id, m.correlation_id, "order_confirmation", .orderConfirmed,
        freshConfirmedEventId, "completed", none⟩]⟩

/-- `SagaOrchestrator.handle_payment_failed`: mark the order failed, emit
the compensating `inventory.released` when a reservation id is recorded on
the order, then emit `order.failed` for the `payment_processing` step. -/
def handlePaymentFailed (db : OrdersDB) (m : PaymentFailedMsg)
    (freshReleaseEventId freshFailedEventId : UUID) : OrchResult :=
  match getOrder db m.order_id with
  | none => ⟨db, [], []⟩
  | some order =>
    let order' := { order with
      status := OrderStatus.failed
      error_message := some m.reason }
    let failedEvent : Event :=
      { event_id := freshFailedEventId
        aggregate_id := order.id
        correlation_id := m.correlation_id
        causation_id := some m.event_id
        data := .orderFailed order.id m.reason "payment_processing" }
    let failLog : SagaLogEntry :=
      ⟨order.id, m.correlation_id, "payment_processing", .paymentFailed,
        m.event_id, "failed", some m.reason⟩
    match order.reservation_id with
    | some rid =>
      let releaseEvent : Event :=
        { event_id := freshReleaseEventId
          aggregate_id := order.id
          correlation_id := m.correlation_id
          causation_id := some m.event_id
          data := .inventoryReleased order.id rid }
      ⟨updateOrder db m.order_id order', [releaseEvent, failedEvent],
        [failLog,
         ⟨order.id, m.correlation_id, "compensation", .inventoryReleased,
          freshReleaseEventId, "compensated", none⟩]⟩
    | none =>
      ⟨updateOrder db m.order_id order', [failedEvent], [failLog]⟩

/-! ### Order service HTTP layer (`order_service/app.py`) -/

/-- A raw `POST /orders` body before pydantic validation; `none` marks a
missing field. -/
structure RawOrderRequest where
  customer_id : Option UUID
  items : Option (List OrderItem)
  shipping_address : Option (List (String × String))
  payment_method : Option (List (String × String))
deriving DecidableEq

/-- A validated `CreateOrderRequest` (`order_service/app.py`). -/
structure CreateOrderRequest where
  customer_id : UUID
  items : List OrderItem
  shipping_address : List (String × String)
  payment_method : List (String × String)
deriving DecidableEq

/-- Pydantic validation of `CreateOrderRequest`: each field must be present
and well-typed.  `items : List[OrderItem]` carries no minimum-length
constraint, so any list — including the empty one — validates. -/
def validateCreateOrder (r : RawOrderRequest) :
    Except String CreateOrderRequest :=
  match r.customer_id, r.items, r.shipping_address, r.payment_method with
  | some c, some its, some sa, some pm => .ok ⟨c, its, sa, pm⟩
  | _, _, _, _ => .error "field required"

/-- Result of a successful `POST /orders`. -/
structure CreateResult where
  order : Order
  outbox : List Event
  logs : List SagaLogEntry
deriving DecidableEq

/-- `create_order` endpoint body: compute
`total_amount = Σ price · quantity` and start the saga. -/
def createOrder (req : CreateOrderRequest) (orderId correlationId
    placedEventId reserveEventId : UUID) : CreateResult :=
  let total_amount :=
    (req.items.map fun it => it.price * it.quantity).foldl (· + ·) 0
  let r := startOrderSaga req.customer_id req.items total_amount orderId
    correlationId placedEventId reserveEventId
  ⟨r.1, r.2.1, r.2.2⟩

/-! ### Inventory service (`inventory_service/models.py`, `app.py`) -/

inductive ReservationStatus where
  | active
  | released
  | expired
deriving DecidableEq

structure Product where
  id : UUID
  price : Money
  available_quantity : Int
  reserved_quantity : Int
deriving DecidableEq

structure Reservation where
  id : UUID
  order_id : UUID
  correlation_id : UUID
  status : ReservationStatus
  items : List ReserveItem
  released_at : Option Nat
deriving DecidableEq

/-- The inventory service's database: the `products` and `reservations`
tables. -/
structure InvDB where
  products : List Product
  reservations : List Reservation
deriving DecidableEq

/-- `select(Product).where(Product.id == product_id)` with
`scalar_one_or_none`. -/
def findProduct : List Product → UUID → Option Product
  | [], _ => none
  | p :: rest, pid => if p.id = pid then some p else findProduct rest pid

/-- `select(Reservation).where(Reservation.order_id == order_id)` with
`scalar_one_or_none`. -/
def findReservationByOrder : List Reservation → UUID → Option Reservation
  | [], _ => none
  | r :: rest, oid =>
    if r.order_id = oid then some r else findReservationByOrder rest oid

/-- `select(Reservation).where(Reservation.id == reservation_id,
Reservation.order_id == order_id)` with `scalar_one_or_none`. -/
def findReservationByIdOrder : List Reservation → UUID → UUID →
    Option Reservation
  | [], _, _ => none
  | r :: rest, rid, oid =>
    if r.id = rid ∧ r.order_id = oid then some r
    else findReservationByIdOrder rest rid oid

/-- The availability-check loop of `handle_reserve_requested`: for each
requested item, a missing product contributes `available = 0`, a product
with `available_quantity < quantity` contributes its quantity; all checks
read the state as it was before any update. -/
def unavailableItems (ps : List Product) : List ReserveItem →
    List UnavailableItem
  | [] => []
  | it :: rest =>
    match findProduct ps it.product_id with
    | none =>
      ⟨it.product_id, it.quantity, 0⟩ :: unavailableItems ps rest
    | some p =>
      if p.available_quantity < it.quantity then
        ⟨it.product_id, it.quantity, p.available_quantity⟩ ::
          unavailableItems ps rest
      else unavailableItems ps rest

/-- One `update(Product).values(available_quantity - q,
reserved_quantity + q)` statement. -/
def reserveOne (ps : List Product) (it : ReserveItem) : List Product :=
  ps.map fun p =>
    if p.id = it.product_id then
      { p with
        available_quantity := p.available_quantity - it.quantity
        reserved_quantity := p.reserved_quantity + it.quantity }
    else p

/-- The reserve-update loop of `handle_reserve_requested`. -/
def reserveAll (ps : List Product) (items : List ReserveItem) :
    List Product :=
  items.foldl reserveOne ps

/-- One `update(Product).values(available_quantity + q,
reserved_quantity - q)` statement of the release loop. -/
def releaseOne (ps : List Product) (it : ReserveItem) : List Product :=
  ps.map fun p =>
    if p.id = it.product_id then
      { p with
        available_quantity := p.available_quantity + it.quantity
        reserved_quantity := p.reserved_quantity - it.quantity }
    else p

/-- The release-update loop of `handle_release_inventory`. -/
def releaseAll (ps : List Product) (items : List ReserveItem) :
    List Product :=
  items.foldl releaseOne ps

/-- `handle_reserve_requested`: replay-protection lookup by order_id,
availability check, then either a failure reply and no state change, or the
quantity updates plus a new active reservation and a success reply. -/
def handleReserveRequested (db : InvDB) (m : InventoryReserveRequestedMsg)
    (freshReservationId freshEventId : UUID) : InvDB × List Event :=
  match findReservationByOrder db.reservations m.order_id with
  | some r =>
    (db,
      [{ event_id := freshEventId
         aggregate_id := m.aggregate_id
         correlation_id := m.correlation_id
         causation_id := some m.event_id
         data := .inventoryReserved m.order_id r.id r.items }])
  | none =>
    let unavail := unavailableItems db.products m.items
    if unavail.isEmpty then
      let resv : Reservation :=
        { id := freshReservationId
          order_id := m.order_id
          correlation_id := m.correlation_id
          status := .active
          items := m.items
          released_at := none }
      (⟨reserveAll db.products m.items, db.reservations ++ [resv]⟩,
        [{ event_id := freshEventId
           aggregate_id := m.aggregate_id
           correlation_id := m.correlation_id
           causation_id := some m.event_id
           data := .inventoryReserved m.order_id freshReservationId
             m.items }])
    else
      (db,
        [{ event_id := freshEventId
           aggregate_id := m.aggregate_id
           correlation_id := m.correlation_id
           causation_id := some m.event_id
           data := .inventoryReserveFailed m.order_id
             "Insufficient inventory" unavail }])

/-- `handle_release_inventory`: lookup the reservation by id and order_id;
return unchanged when absent or already released; otherwise put the
reserved quantities back, mark the reservation released and stamp
`released_at`.  No reply event is written in any branch. -/
def handleReleaseInventory (db : InvDB) (m : InventoryReleasedMsg)
    (now : Nat) : InvDB × List Event :=
  match findReservationByIdOrder db.reservations m.reservation_id
      m.order_id with
  | none => (db, [])
  | some r =>
    if r.status = ReservationStatus.released then (db, [])
    else
      let r' := { r with
        status := ReservationStatus.released
        released_at := some now }
      (⟨releaseAll db.products r.items,
        db.reservations.map fun x =>
          if x.id = m.reservation_id ∧ x.order_id = m.order_id then r'
          else x⟩,
        [])

/-! ### Specification-side inventory measures

These are not translations of source code; they state, per product id, what
"subtract each quantity / add it back" amounts to, so that the theorems can
relate the source's sequential update loops to a per-product sum. -/

/-- Total quantity requested for one product across an item list. -/
def requestedQty : List ReserveItem → UUID → Int
  | [], _ => 0
  | it :: rest, pid =>
    (if it.product_id = pid then it.quantity else 0) + requestedQty rest pid

/-- Available quantity of a product, when the product exists. -/
def availQty (ps : List Product) (pid : UUID) : Option Int :=
  (findProduct ps pid).map (·.available_quantity)

/-- Reserved quantity of a product, when the product exists. -/
def reservedQty (ps : List Product) (pid : UUID) : Option Int :=
  (findProduct ps pid).map (·.reserved_quantity)

/-! ### Payment service (`payment_service/models.py`, `app.py`) -/

inductive TransactionStatus where
  | pending
  | processing
  | completed
  | failed
  | refunded
deriving DecidableEq

structure Transaction where
  id : UUID
  order_id : UUID
  customer_id : UUID
  correlation_id : UUID
  idempotency_key : String
  amount : Money
  currency : String
  status : TransactionStatus
  error_message : Option String
deriving DecidableEq

abbrev PayDB := List Transaction

/-- Python's `s or default` on an optional string: `None` and the empty
string are both falsy. -/
def orElseStr : Option String → String → String
  | none, d => d
  | some s, d => if s = "" then d else s

/-- `idempotency_key = f"payment_{event.order_id}"`. -/
def idemKey (order_id : UUID) : String :=
  "payment_" ++ toString order_id

/-- `select(Transaction).where(Transaction.idempotency_key == key)` with
`scalar_one_or_none`. -/
def lookupTransaction : PayDB → String → Option Transaction
  | [], _ => none
  | t :: rest, key =>
    if t.idempotency_key = key then some t else lookupTransaction rest key

/-- Number of rows with the given idempotency key. -/
def countKey (db : PayDB) (key : String) : Nat :=
  (db.filter fun t => t.idempotency_key = key).length

/-- Outcome of one `process_payment` gateway invocation
(`payment_service/app.py` returns `(success, error_message)`). -/
structure GatewayResult where
  success : Bool
  error_message : Option String
deriving DecidableEq

/-- Result of one `handle_payment_requested` run: the transactions table,
the outbox events written, and how many times the gateway was invoked. -/
structure PayResult where
  db : PayDB
  outbox : List Event
  gatewayCalls : Nat
deriving DecidableEq

/-- `handle_payment_requested`: lookup by idempotency key; on a hit re-emit
the reply dictated by the stored status (nothing for a status other than
completed/failed) without touching the gateway; on a miss insert a
processing transaction, invoke the gateway once, then finalize the row and
emit the corresponding reply.  The source's two commits (insert, then
finalize) are the two stages of the miss branch. -/
def handlePaymentRequested (db : PayDB) (m : PaymentRequestedMsg)
    (gw : GatewayResult) (freshTransactionId freshEventId : UUID) :
    PayResult :=
  let key := idemKey m.order_id
  match lookupTransaction db key with
  | some t =>
    if t.status = TransactionStatus.completed then
      ⟨db,
        [{ event_id := freshEventId
           aggregate_id := m.aggregate_id
           correlation_id := m.correlation_id
           causation_id := some m.event_id
           data := .paymentProcessed m.order_id t.id t.amount t.currency }],
        0⟩
    else if t.status = TransactionStatus.failed then
      ⟨db,
        [{ event_id := freshEventId
           aggregate_id := m.aggregate_id
           correlation_id := m.correlation_id
           causation_id := some m.event_id
           data := .paymentFailed m.order_id
             (orElseStr t.error_message "Unknown error")
             (some "PAYMENT_FAILED") }],
        0⟩
    else ⟨db, [], 0⟩
  | none =>
    if gw.success then
      let t : Transaction :=
        { id := freshTransactionId
          order_id := m.order_id
          customer_id := m.customer_id
          correlation_id := m.correlation_id
          idempotency_key := key
          amount := m.amount
          currency := m.currency
          status := .completed
          error_message := none }
      ⟨db ++ [t],
        [{ event_id := freshEventId
           aggregate_id := m.aggregate_id
           correlation_id := m.correlation_id
           causation_id := some m.event_id
           data := .paymentProcessed m.order_id freshTransactionId m.amount
             m.currency }],
        1⟩
    else
      let t : Transaction :=
        { id := freshTransactionId
          order_id := m.order_id
          customer_id := m.customer_id
          correlation_id := m.correlation_id
          idempotency_key := key
          amount := m.amount
          currency := m.currency
          status := .failed
          error_message := gw.error_message }
      ⟨db ++ [t],
        [{ event_id := freshEventId
           aggregate_id := m.aggregate_id
           correlation_id := m.correlation_id
           causation_id := some m.event_id
           data := .paymentFailed m.order_id
             (orElseStr gw.error_message "Payment processing failed")
             (some "PAYMENT_FAILED") }],
        1⟩

/-! ### Message broker consumer loop (`shared/message_broker.py`) -/

/-- The headers of a delivered message: the numeric `x-retry-count` (absent
on first delivery) and the remaining string headers, which the retry path
copies through unchanged. -/
structure MessageHeaders where
  xRetryCount : Option Nat
  rest : List (String × String)
deriving DecidableEq

/-- `retry_count = int(message.headers["x-retry-count"])` with 0 when the
header is absent. -/
def headerRetryCount (h : MessageHeaders) : Nat :=
  h.xRetryCount.getD 0

/-- `headers["x-retry-count"] = retry_count` on a copy of the headers. -/
def setRetryCount (h : MessageHeaders) (rc : Nat) : MessageHeaders :=
  { h with xRetryCount := some rc }

/-- A message as delivered to a consumer. -/
structure DeliveredMessage where
  body : String
  routingKey : String
  headers : MessageHeaders
deriving DecidableEq

/-- What one pass of `process_message` does with the delivery.  The message
is consumed inside `message.process(requeue=False)`, so `rejectToDLQ`
(re-raising after max retries) rejects the original delivery without
requeue and the queue's bound DLX dead-letters it. -/
inductive ConsumerAction where
  | ack
  | retryPublish (sleepSeconds : Nat) (exchange : String)
      (routingKey : String) (body : String) (headers : MessageHeaders)
  | rejectToDLQ
deriving DecidableEq

/-- `subscribe_to_event`'s `process_message`, as a function of whether the
handler (including deserialization) succeeded.  On failure the retry count
is read from the headers and incremented; within budget the consumer sleeps
`min(2^retry_count, 60)` seconds and republishes the original body to the
`saga_events` exchange under the subscription's event-type routing key with
the updated headers; beyond budget it re-raises. -/
def processEventMessage (eventTypeKey : String) (maxRetries : Nat)
    (msg : DeliveredMessage) (handlerOk : Bool) : ConsumerAction :=
  if handlerOk then .ack
  else
    let rc := headerRetryCount msg.headers + 1
    if rc ≤ maxRetries then
      .retryPublish (min (2 ^ rc) 60) "saga_events" eventTypeKey msg.body
        (setRetryCount msg.headers rc)
    else .rejectToDLQ

/-- `subscribe_to_pattern`'s `process_message`: identical except that the
retry republish uses `message.routing_key or pattern`. -/
def processPatternMessage (pattern : String) (maxRetries : Nat)
    (msg : DeliveredMessage) (handlerOk : Bool) : ConsumerAction :=
  if handlerOk then .ack
  else
    let rc := headerRetryCount msg.headers + 1
    if rc ≤ maxRetries then
      .retryPublish (min (2 ^ rc) 60) "saga_events"
        (if msg.routingKey = "" then pattern else msg.routingKey) msg.body
        (setRetryCount msg.headers rc)
    else .rejectToDLQ

/-- The `max_retries` default of both subscribe methods. -/
def defaultMaxRetries : Nat := 3

/-! ### Outbox publisher (`shared/outbox.py`) -/

inductive OutboxStatus where
  | pending
  | published
  | failed
deriving DecidableEq

/-- An `outbox` row.  The source stores `retry_count` as a string column
and round-trips it through `int(...)`/`str(...)`; it is modelled by the
number it denotes. -/
structure OutboxRow where
  id : UUID
  event_id : UUID
  status : OutboxStatus
  retry_count : Nat
  error_message : Option String
  created_at : Nat
deriving DecidableEq

/-- Outcome of `message_broker.publish_event` for one row. -/
inductive PublishOutcome where
  | ok
  | error (msg : String)
deriving DecidableEq

/-- The per-row body of `_publish_pending_messages`: a successful publish
marks the row published; an exception increments `retry_count`, stores the
error text, and marks the row failed once the new count reaches
`max_retries`. -/
def publishRowStep (maxRetries : Nat) (row : OutboxRow) :
    PublishOutcome → OutboxRow
  | .ok => { row with status := .published }
  | .error m =>
    let rc := row.retry_count + 1
    { row with
      retry_count := rc
      error_message := some m
      status := if maxRetries ≤ rc then .failed else row.status }

/-- The reset applied by `retry_failed_messages` to each selected row. -/
def resetRow (row : OutboxRow) : OutboxRow :=
  { row with
    status := .pending
    retry_count := 0
    error_message := none }

/-- `retry_failed_messages(limit)`: the first `limit` failed rows in
`created_at` order (the list order of the table model) are reset to
pending; every other row is untouched. -/
def retryFailedMessages : List OutboxRow → Nat → List OutboxRow
  | [], _ => []
  | r :: rest, limit =>
    if r.status = OutboxStatus.failed ∧ 0 < limit then
      resetRow r :: retryFailedMessages rest (limit - 1)
    else r :: retryFailedMessages rest limit

/-- Number of failed rows in a table. -/
def failedCount (rows : List OutboxRow) : Nat :=
  (rows.filter fun r => r.status = OutboxStatus.failed).length

/-- The `max_retries` default of `OutboxPublisher`. -/
def outboxDefaultMaxRetries : Nat := 3

/-! ### Helper lemmas -/

theorem getOrder_eq_id {db : OrdersDB} {oid : UUID} {o : Order}
    (h : getOrder db oid = some o) : o.id = oid := by
  induction db with
  | nil => simp [getOrder] at h
  | cons x rest ih =>
    by_cases hx : x.id = oid
    · simp [getOrder, hx] at h; simpa [← h]
    · simp [getOrder, hx] at h; exact ih h

theorem getOrder_update {db : OrdersDB} {oid : UUID} {o : Order}
    (o' : Order) (h : getOrder db oid = some o) (h' : o'.id = oid) :
    getOrder (updateOrder db oid o') oid = some o' := by
  induction db with
  | nil => simp [getOrder] at h
  | cons x rest ih =>
    by_cases hx : x.id = oid
    · simp [updateOrder, getOrder, hx, h']
    · simp [getOrder, hx] at h
      simpa [updateOrder, getOrder, hx] using ih h

theorem findProduct_eq_id {ps : List Product} {pid : UUID} {p : Product}
    (h : findProduct ps pid = some p) : p.id = pid := by
  induction ps with
  | nil => simp [findProduct] at h
  | cons x rest ih =>
    by_cases hx : x.id = pid
    · simp [findProduct, hx] at h; simpa [← h]
    · simp [findProduct, hx] at h; exact ih h

theorem findProduct_map_preserve {ps : List Product} {pid : UUID}
    (f : Product → Product) (hf : ∀ p, (f p).id = p.id) :
    findProduct (ps.map f) pid = (findProduct ps pid).map f := by
  induction ps with
  | nil => simp [findProduct]
  | cons x rest ih =>
    by_cases hx : x.id = pid
    · simp [findProduct, hf, hx]
    · simp [findProduct, hf, hx, ih]

theorem availQty_reserveOne (ps : List Product) (it : ReserveItem)
    (pid : UUID) :
    availQty (reserveOne ps it) pid =
      (availQty ps pid).map
        (· - (if it.product_id = pid then it.quantity else 0)) := by
  unfold availQty reserveOne
  rw [findProduct_map_preserve]
  · cases hp : findProduct ps pid with
    | none => simp
    | some p =>
      have hid := findProduct_eq_id hp
      by_cases hc : it.product_id = pid
      · simp [hid, hc]
      · have : ¬ p.id = it.product_id := by rw [hid]; exact fun e => hc e.symm
        simp [this, hc]
  · intro p
    by_cases hc : p.id = it.product_id <;> simp [hc]

theorem reservedQty_reserveOne (ps : List Product) (it : ReserveItem)
    (pid : UUID) :
    reservedQty (reserveOne ps it) pid =
      (reservedQty ps pid).map
        (· + (if it.product_id = pid then it.quantity else 0)) := by
  unfold reservedQty reserveOne
  rw [findProduct_map_preserve]
  · cases hp : findProduct ps pid with
    | none => simp
    | some p =>
      have hid := findProduct_eq_id hp
      by_cases hc : it.product_id = pid
      · simp [hid, hc]
      · have : ¬ p.id = it.product_id := by rw [hid]; exact fun e => hc e.symm
        simp [this, hc]
  · intro p
    by_cases hc : p.id = it.product_id <;> simp [hc]

theorem availQty_releaseOne (ps : List Product) (it : ReserveItem)
    (pid : UUID) :
    availQty (releaseOne ps it) pid =
      (availQty ps pid).map
        (· + (if it.product_id = pid then it.quantity else 0)) := by
  unfold availQty releaseOne
  rw [findProduct_map_preserve]
  · cases hp : findProduct ps pid with
    | none => simp
    | some p =>
      have hid := findProduct_eq_id hp
      by_cases hc : it.product_id = pid
      · simp [hid, hc]
      · have : ¬ p.id = it.product_id := by rw [hid]; exact fun e => hc e.symm
        simp [this, hc]
  · intro p
    by_cases hc : p.id = it.product_id <;> simp [hc]

theorem reservedQty_releaseOne (ps : List Product) (it : ReserveItem)
    (pid : UUID) :
    reservedQty (releaseOne ps it) pid =
      (reservedQty ps pid).map
        (· - (if it.product_id = pid then it.quantity else 0)) := by
  unfold reservedQty releaseOne
  rw [findProduct_map_preserve]
  · cases hp : findProduct ps pid with
    | none => simp
    | some p =>
      have hid := findProduct_eq_id hp
      by_cases hc : it.product_id = pid
      · simp [hid, hc]
      · have : ¬ p.id = it.product_id := by rw [hid]; exact fun e => hc e.symm
        simp [this, hc]
  · intro p
    by_cases hc : p.id = it.product_id <;> simp [hc]

theorem availQty_reserveAll (ps : List Product) (items : List ReserveItem)
    (pid : UUID) :
    availQty (reserveAll ps items) pid =
      (availQty ps pid).map (· - requestedQty items pid) := by
  induction items generalizing ps with
  | nil =>
    cases h : availQty ps pid <;> simp [reserveAll, requestedQty, h]
  | cons it rest ih =>
    have step := availQty_reserveOne ps it pid
    have : reserveAll ps (it :: rest) = reserveAll (reserveOne ps it) rest := by
      simp [reserveAll]
    rw [this, ih, step]
    cases availQty ps pid with
    | none => simp
    | some a => simp [requestedQty, sub_sub]

theorem reservedQty_reserveAll (ps : List Product)
    (items : List ReserveItem) (pid : UUID) :
    reservedQty (reserveAll ps items) pid =
      (reservedQty ps pid).map (· + requestedQty items pid) := by
  induction items generalizing ps with
  | nil =>
    cases h : reservedQty ps pid <;> simp [reserveAll, requestedQty, h]
  | cons it rest ih =>
    have step := reservedQty_reserveOne ps it pid
    have : reserveAll ps (it :: rest) = reserveAll (reserveOne ps it) rest := by
      simp [reserveAll]
    rw [this, ih, step]
    cases reservedQty ps pid with
    | none => simp
    | some a => simp [requestedQty, add_assoc]

theorem availQty_releaseAll (ps : List Product) (items : List ReserveItem)
    (pid : UUID) :
    availQty (releaseAll ps items) pid =
      (availQty ps pid).map (· + requestedQty items pid) := by
  induction items generalizing ps with
  | nil =>
    cases h : availQty ps pid <;> simp [releaseAll, requestedQty, h]
  | cons it rest ih =>
    have step := availQty_releaseOne ps it pid
    have : releaseAll ps (it :: rest) = releaseAll (releaseOne ps it) rest := by
      simp [releaseAll]
    rw [this, ih, step]
    cases availQty ps pid with
    | none => simp
    | some a => simp [requestedQty, add_assoc]

theorem reservedQty_releaseAll (ps : List Product)
    (items : List ReserveItem) (pid : UUID) :
    reservedQty (releaseAll ps items) pid =
      (reservedQty ps pid).map (· - requestedQty items pid) := by
  induction items generalizing ps with
  | nil =>
    cases h : reservedQty ps pid <;> simp [releaseAll, requestedQty, h]
  | cons it rest ih =>
    have step := reservedQty_releaseOne ps it pid
    have : releaseAll ps (it :: rest) = releaseAll (releaseOne ps it) rest := by
      simp [releaseAll]
    rw [this, ih, step]
    cases reservedQty ps pid with
    | none => simp
    | some a => simp [requestedQty, sub_sub]

theorem findReservationByOrder_append_none {rs : List Reservation}
    {oid : UUID} (r : Reservation)
    (h : findReservationByOrder rs oid = none) :
    findReservationByOrder (rs ++ [r]) oid =
      if r.order_id = oid then some r else none := by
  induction rs with
  | nil => simp [findReservationByOrder]
  | cons x rest ih =>
    by_cases hx : x.order_id = oid
    · simp [findReservationByOrder, hx] at h
    · simp [findReservationByOrder, hx] at h ⊢
      exact ih h

theorem findReservationByIdOrder_update {rs : List Reservation}
    {rid oid : UUID} {r : Reservation} (r' : Reservation)
    (h : findReservationByIdOrder rs rid oid = some r)
    (hid : r'.id = rid) (hord : r'.order_id = oid) :
    findReservationByIdOrder
      (rs.map fun x => if x.id = rid ∧ x.order_id = oid then r' else x)
      rid oid = some r' := by
  induction rs with
  | nil => simp [findReservationByIdOrder] at h
  | cons x rest ih =>
    by_cases hx : x.id = rid ∧ x.order_id = oid
    · simp [findReservationByIdOrder, hx, hid, hord]
    · simp [findReservationByIdOrder, hx] at h
      simpa [findReservationByIdOrder, hx] using ih h

theorem lookupTransaction_filter_nil {db : PayDB} {key : String}
    (h : lookupTransaction db key = none) :
    countKey db key = 0 := by
  induction db with
  | nil => simp [countKey]
  | cons t rest ih =>
    by_cases ht : t.idempotency_key = key
    · simp [lookupTransaction, ht] at h
    · simp [lookupTransaction, ht] at h
      simpa [countKey, List.filter, ht] using ih h

theorem countKey_append (db : PayDB) (t : Transaction) (key : String) :
    countKey (db ++ [t]) key =
      countKey db key + (if t.idempotency_key = key then 1 else 0) := by
  by_cases ht : t.idempotency_key = key <;>
    simp [countKey, List.filter_append, List.filter, ht]

theorem lookupTransaction_append_none {db : PayDB} {key : String}
    (t : Transaction) (h : lookupTransaction db key = none) :
    lookupTransaction (db ++ [t]) key =
      if t.idempotency_key = key then some t else none := by
  induction db with
  | nil => simp [lookupTransaction]
  | cons x rest ih =>
    by_cases hx : x.idempotency_key = key
    · simp [lookupTransaction, hx] at h
    · simp [lookupTransaction, hx] at h ⊢
      exact ih h

theorem retryFailedMessages_forall₂ (rows : List OutboxRow) (limit : Nat) :
    List.Forall₂
      (fun a b => b = a ∨ (a.status = OutboxStatus.failed ∧ b = resetRow a))
      rows (retryFailedMessages rows limit) := by
  induction rows generalizing limit with
  | nil => simp [retryFailedMessages]
  | cons r rest ih =>
    by_cases hr : r.status = OutboxStatus.failed ∧ 0 < limit
    · rw [retryFailedMessages, if_pos hr]
      exact List.Forall₂.cons (Or.inr ⟨hr.1, rfl⟩) (ih (limit - 1))
    · rw [retryFailedMessages, if_neg hr]
      exact List.Forall₂.cons (Or.inl rfl) (ih limit)

theorem retryFailedMessages_failedCount (rows : List OutboxRow)
    (limit : Nat) :
    failedCount (retryFailedMessages rows limit) =
      failedCount rows - min limit (failedCount rows) := by
  induction rows generalizing limit with
  | nil => simp [retryFailedMessages, failedCount]
  | cons r rest ih =>
    by_cases hf : r.status = OutboxStatus.failed
    · by_cases hl : 0 < limit
      · have : failedCount (r :: rest) = failedCount rest + 1 := by
          simp [failedCount, List.filter, hf]
        simp only [retryFailedMessages, hf, hl, and_true, if_true, this]
        have hreset : (resetRow r).status = OutboxStatus.pending := rfl
        have : failedCount (resetRow r :: retryFailedMessages rest (limit - 1)) =
            failedCount (retryFailedMessages rest (limit - 1)) := by
          simp [failedCount, List.filter, hreset]
        rw [this, ih (limit - 1)]
        omega
      · have hl0 : limit = 0 := by omega
        subst hl0
        have : failedCount (r :: rest) = failedCount rest + 1 := by
          simp [failedCount, List.filter, hf]
        simp only [retryFailedMessages, lt_irrefl, and_false, if_false, this]
        have : failedCount (r :: retryFailedMessages rest 0) =
            failedCount (retryFailedMessages rest 0) + 1 := by
          simp [failedCount, List.filter, hf]
        rw [this, ih 0]
        omega
    · have h1 : failedCount (r :: rest) = failedCount rest := by
        simp [failedCount, List.filter, hf]
      simp only [retryFailedMessages, hf, false_and, if_false]
      have h2 : failedCount (r :: retryFailedMessages rest limit) =
          failedCount (retryFailedMessages rest limit) := by
        simp [failedCount, List.filter, hf]
      rw [h1, h2, ih limit]

/-! ### Claim theorems -/

/-- C4: every delivered message is either acknowledged after handler
success, or, on handler exception, the retry count is read from the
`x-retry-count` header and incremented, the consumer sleeps
`min(2^retry_count, 60)` seconds and republishes the body to the same
exchange with the same routing key and the updated header; once the
incremented count exceeds `max_retries` the delivery is rejected without
requeue and dead-letters via the bound DLX.  Covers both
`subscribe_to_event` (exact-match binding, so the republish key
`event_type.value` is the delivery's routing key) and
`subscribe_to_pattern` (republish under the incoming routing key). -/
theorem consumer_retry_contract (etKey pattern : String) (maxRetries : Nat)
    (msg : DeliveredMessage) (handlerOk : Bool)
    (hkey : msg.routingKey = etKey) (hne : msg.routingKey ≠ "") :
    (handlerOk = true →
      processEventMessage etKey maxRetries msg handlerOk =
        ConsumerAction.ack ∧
      processPatternMessage pattern maxRetries msg handlerOk =
        ConsumerAction.ack) ∧
    (handlerOk = false →
      (headerRetryCount msg.headers + 1 ≤ maxRetries →
        processEventMessage etKey maxRetries msg handlerOk =
          ConsumerAction.retryPublish
            (min (2 ^ (headerRetryCount msg.headers + 1)) 60) "saga_events"
            msg.routingKey msg.body
            (setRetryCount msg.headers (headerRetryCount msg.headers + 1)) ∧
        processPatternMessage pattern maxRetries msg handlerOk =
          ConsumerAction.retryPublish
            (min (2 ^ (headerRetryCount msg.headers + 1)) 60) "saga_events"
            msg.routingKey msg.body
            (setRetryCount msg.headers (headerRetryCount msg.headers + 1))) ∧
      (maxRetries < headerRetryCount msg.headers + 1 →
        processEventMessage etKey maxRetries msg handlerOk =
          ConsumerAction.rejectToDLQ ∧
        processPatternMessage pattern maxRetries msg handlerOk =
          ConsumerAction.rejectToDLQ)) := by
  subst hkey
  refine ⟨fun hok => ?_, fun hko => ⟨fun hle => ?_, fun hgt => ?_⟩⟩
  · subst hok; exact ⟨rfl, rfl⟩
  · subst hko
    constructor
    · simp [processEventMessage, hle]
    · simp [processPatternMessage, hle, hne]
  · subst hko
    have hnle : ¬ headerRetryCount msg.headers + 1 ≤ maxRetries := by omega
    constructor
    · simp [processEventMessage, hnle]
    · simp [processPatternMessage, hnle]

/-- C4 witness: a concrete second-failure delivery is republished after a
4-second backoff, and a concrete fourth failure is rejected to the DLQ. -/
theorem consumer_retry_contract_witness :
    processEventMessage "payment.requested" 3
        ⟨"b", "payment.requested", ⟨some 1, []⟩⟩ false =
      ConsumerAction.retryPublish 4 "saga_events" "payment.requested" "b"
        ⟨some 2, []⟩ ∧
    processEventMessage "payment.requested" 3
        ⟨"b", "payment.requested", ⟨some 3, []⟩⟩ false =
      ConsumerAction.rejectToDLQ :=
  ⟨(((consumer_retry_contract "payment.requested" "order.*" 3
      ⟨"b", "payment.requested", ⟨some 1, []⟩⟩ false rfl
      (by decide)).2 rfl).1 (by decide)).1,
   (((consumer_retry_contract "payment.requested" "order.*" 3
      ⟨"b", "payment.requested", ⟨some 3, []⟩⟩ false rfl
      (by decide)).2 rfl).2 (by decide)).1⟩

/-- C8: for a pending outbox row, a publish exception increments
`retry_count` and stores the error text; the row ends up failed exactly
when the incremented count reaches `max_retries` (default 3); and
`retry_failed_messages` resets the first `limit` failed rows to pending
with a zero retry count and a cleared error, touching nothing else. -/
theorem outbox_retry_behavior (maxRetries : Nat) (row : OutboxRow)
    (em : String) (rows : List OutboxRow) (limit : Nat)
    (h : row.status = OutboxStatus.pending) :
    (publishRowStep maxRetries row (.error em)).retry_count =
      row.retry_count + 1 ∧
    (publishRowStep maxRetries row (.error em)).error_message = some em ∧
    ((publishRowStep maxRetries row (.error em)).status =
        OutboxStatus.failed ↔ maxRetries ≤ row.retry_count + 1) ∧
    List.Forall₂
      (fun a b => b = a ∨ (a.status = OutboxStatus.failed ∧ b = resetRow a))
      rows (retryFailedMessages rows limit) ∧
    failedCount (retryFailedMessages rows limit) =
      failedCount rows - min limit (failedCount rows) ∧
    (resetRow row).status = OutboxStatus.pending ∧
    (resetRow row).retry_count = 0 ∧
    (resetRow row).error_message = none := by
  refine ⟨rfl, rfl, ?_, retryFailedMessages_forall₂ rows limit,
    retryFailedMessages_failedCount rows limit, rfl, rfl, rfl⟩
  by_cases hle : maxRetries ≤ row.retry_count + 1
  · simp [publishRowStep, hle]
  · simp [publishRowStep, hle, h]

/-- C8 witness: a pending row with two prior retries fails on its third
publish error under the default limit of 3, and resetting with limit 1
clears exactly one of two failed rows. -/
theorem outbox_retry_behavior_witness :
    (publishRowStep 3 ⟨1, 2, .pending, 2, none, 0⟩
      (.error "boom")).status = OutboxStatus.failed ∧
    failedCount (retryFailedMessages
      [⟨1, 2, .failed, 3, some "x", 0⟩, ⟨3, 4, .failed, 3, some "y", 1⟩]
      1) = 1 := by
  have h := outbox_retry_behavior 3 ⟨1, 2, .pending, 2, none, 0⟩ "boom"
    [⟨1, 2, .failed, 3, some "x", 0⟩, ⟨3, 4, .failed, 3, some "y", 1⟩] 1 rfl
  exact ⟨h.2.2.1.mpr (by decide), h.2.2.2.2.1⟩

/-- C10: a `payment.requested` arriving while the stored transaction for
its order has a status other than completed or failed (e.g. `processing`,
as left by a crash between the insert commit and the finalize commit)
produces no reply event, no second transaction row, and no gateway
invocation. -/
theorem payment_processing_duplicate_noop (db : PayDB)
    (m : PaymentRequestedMsg) (gw : GatewayResult)
    (freshTransactionId freshEventId : UUID) (t : Transaction)
    (h : lookupTransaction db (idemKey m.order_id) = some t)
    (hc : t.status ≠ TransactionStatus.completed)
    (hf : t.status ≠ TransactionStatus.failed) :
    handlePaymentRequested db m gw freshTransactionId freshEventId =
      ⟨db, [], 0⟩ := by
  simp [handlePaymentRequested, h, hc, hf]

/-- C10 witness: a concrete duplicate against a `processing` transaction is
a no-op. -/
theorem payment_processing_duplicate_noop_witness :
    lookupTransaction
      [⟨5, 7, 8, 9, "payment_7", 100, "USD", .processing, none⟩]
      (idemKey 7) =
      some ⟨5, 7, 8, 9, "payment_7", 100, "USD", .processing, none⟩ ∧
    handlePaymentRequested
      [⟨5, 7, 8, 9, "payment_7", 100, "USD", .processing, none⟩]
      ⟨1, 7, 9, 7, 8, 100, "USD"⟩ ⟨true, none⟩ 50 51 =
      ⟨[⟨5, 7, 8, 9, "payment_7", 100, "USD", .processing, none⟩], [], 0⟩ :=
  ⟨by decide,
   payment_processing_duplicate_noop
     [⟨5, 7, 8, 9, "payment_7", 100, "USD", .processing, none⟩]
     ⟨1, 7, 9, 7, 8, 100, "USD"⟩ ⟨true, none⟩ 50 51
     ⟨5, 7, 8, 9, "payment_7", 100, "USD", .processing, none⟩
     (by decide) (by decide) (by decide)⟩

/-- C5: handling `payment.failed` for an existing order marks it failed
with the event's reason, writes the compensating `inventory.released`
carrying the order's reservation_id to the outbox exactly when a
reservation_id is recorded, and writes `order.failed` with
`failed_step=payment_processing`. -/
theorem payment_failed_compensation (db : OrdersDB) (m : PaymentFailedMsg)
    (freshReleaseEventId freshFailedEventId : UUID) (o : Order)
    (h : getOrder db m.order_id = some o) :
    getOrder (handlePaymentFailed db m freshReleaseEventId
        freshFailedEventId).db m.order_id =
      some { o with
        status := OrderStatus.failed
        error_message := some m.reason } ∧
    (handlePaymentFailed db m freshReleaseEventId
        freshFailedEventId).outbox.map Event.data =
      (match o.reservation_id with
       | some rid =>
         [EventData.inventoryReleased o.id rid,
          EventData.orderFailed o.id m.reason "payment_processing"]
       | none =>
         [EventData.orderFailed o.id m.reason "payment_processing"]) := by
  have hid : o.id = m.order_id := getOrder_eq_id h
  constructor
  · cases hrid : o.reservation_id with
    | some rid =>
      simp only [handlePaymentFailed, h, hrid]
      exact getOrder_update _ h hid
    | none =>
      simp only [handlePaymentFailed, h, hrid]
      exact getOrder_update _ h hid
  · cases hrid : o.reservation_id with
    | some rid => simp [handlePaymentFailed, h, hrid]
    | none => simp [handlePaymentFailed, h, hrid]

/-- C5 witness: a concrete order with a recorded reservation fails with the
event's reason, releases its reservation and emits `order.failed` at the
payment step. -/
theorem payment_failed_compensation_witness :
    getOrder [⟨10, 20, .inventory_reserved, .payment_processing, [], 100,
        30, some 11, none, none⟩] 10 =
      some ⟨10, 20, .inventory_reserved, .payment_processing, [], 100, 30,
        some 11, none, none⟩ ∧
    getOrder (handlePaymentFailed
        [⟨10, 20, .inventory_reserved, .payment_processing, [], 100, 30,
          some 11, none, none⟩]
        ⟨2, 10, 30, 10, "Card declined"⟩ 41 42).db 10 =
      some ⟨10, 20, .failed, .payment_processing, [], 100, 30, some 11,
        none, some "Card declined"⟩ ∧
    (handlePaymentFailed
        [⟨10, 20, .inventory_reserved, .payment_processing, [], 100, 30,
          some 11, none, none⟩]
        ⟨2, 10, 30, 10, "Card declined"⟩ 41 42).outbox.map Event.data =
      [EventData.inventoryReleased 10 11,
       EventData.orderFailed 10 "Card declined" "payment_processing"] := by
  have h := payment_failed_compensation
    [⟨10, 20, .inventory_reserved, .payment_processing, [], 100, 30,
      some 11, none, none⟩]
    ⟨2, 10, 30, 10, "Card declined"⟩ 41 42
    ⟨10, 20, .inventory_reserved, .payment_processing, [], 100, 30,
      some 11, none, none⟩ (by decide)
  exact ⟨by decide, h.1, h.2⟩

theorem handlePaymentRequested_fresh (db : PayDB) (m : PaymentRequestedMsg)
    (gw : GatewayResult) (tid eid : UUID)
    (h : lookupTransaction db (idemKey m.order_id) = none) :
    handlePaymentRequested db m gw tid eid =
      ⟨db ++ [⟨tid, m.order_id, m.customer_id, m.correlation_id,
          idemKey m.order_id, m.amount, m.currency,
          if gw.success then .completed else .failed,
          if gw.success then none else gw.error_message⟩],
        [{ event_id := eid
           aggregate_id := m.aggregate_id
           correlation_id := m.correlation_id
           causation_id := some m.event_id
           data :=
             if gw.success then
               .paymentProcessed m.order_id tid m.amount m.currency
             else
               .paymentFailed m.order_id
                 (orElseStr gw.error_message "Payment processing failed")
                 (some "PAYMENT_FAILED") }],
        1⟩ := by
  by_cases hs : gw.success <;> simp [handlePaymentRequested, h, hs]

theorem handlePaymentRequested_dup (db : PayDB) (m : PaymentRequestedMsg)
    (gw : GatewayResult) (tid eid : UUID) (t : Transaction)
    (h : lookupTransaction db (idemKey m.order_id) = some t) :
    handlePaymentRequested db m gw tid eid =
      ⟨db,
        if t.status = TransactionStatus.completed then
          [{ event_id := eid
             aggregate_id := m.aggregate_id
             correlation_id := m.correlation_id
             causation_id := some m.event_id
             data := .paymentProcessed m.order_id t.id t.amount
               t.currency }]
        else if t.status = TransactionStatus.failed then
          [{ event_id := eid
             aggregate_id := m.aggregate_id
             correlation_id := m.correlation_id
             causation_id := some m.event_id
             data := .paymentFailed m.order_id
               (orElseStr t.error_message "Unknown error")
               (some "PAYMENT_FAILED") }]
        else [],
        0⟩ := by
  by_cases hc : t.status = TransactionStatus.completed
  · simp [handlePaymentRequested, h, hc]
  · by_cases hf : t.status = TransactionStatus.failed <;>
      simp [handlePaymentRequested, h, hc, hf]

/-- C3: processing the same `payment.requested` twice leaves exactly one
transaction row under the key `payment_<order_id>`; the second run leaves
the table untouched, never invokes the gateway, and re-emits the reply
dictated by the stored row — `payment.processed` with the stored
transaction id and amount after a completed first run, `payment.failed`
with the stored reason after a failed one. -/
theorem payment_requested_idempotent (db : PayDB)
    (m : PaymentRequestedMsg) (gw1 gw2 : GatewayResult)
    (tid1 eid1 tid2 eid2 : UUID)
    (h : lookupTransaction db (idemKey m.order_id) = none) :
    countKey (handlePaymentRequested
        (handlePaymentRequested db m gw1 tid1 eid1).db m gw2 tid2
        eid2).db (idemKey m.order_id) = 1 ∧
    (handlePaymentRequested (handlePaymentRequested db m gw1 tid1 eid1).db
        m gw2 tid2 eid2).db =
      (handlePaymentRequested db m gw1 tid1 eid1).db ∧
    (handlePaymentRequested (handlePaymentRequested db m gw1 tid1 eid1).db
        m gw2 tid2 eid2).gatewayCalls = 0 ∧
    (handlePaymentRequested (handlePaymentRequested db m gw1 tid1 eid1).db
        m gw2 tid2 eid2).outbox.map Event.data =
      (if gw1.success then
        [EventData.paymentProcessed m.order_id tid1 m.amount m.currency]
      else
        [EventData.paymentFailed m.order_id
          (orElseStr gw1.error_message "Unknown error")
          (some "PAYMENT_FAILED")]) := by
  have hc0 : countKey db (idemKey m.order_id) = 0 :=
    lookupTransaction_filter_nil h
  have hfresh := handlePaymentRequested_fresh db m gw1 tid1 eid1 h
  set t1 : Transaction :=
    ⟨tid1, m.order_id, m.customer_id, m.correlation_id,
      idemKey m.order_id, m.amount, m.currency,
      if gw1.success then .completed else .failed,
      if gw1.success then none else gw1.error_message⟩ with ht1
  have hdb1 : (handlePaymentRequested db m gw1 tid1 eid1).db =
      db ++ [t1] := by rw [hfresh]
  have hlk : lookupTransaction (db ++ [t1]) (idemKey m.order_id) =
      some t1 := by
    rw [lookupTransaction_append_none t1 h]
    simp [ht1]
  have hdup := handlePaymentRequested_dup (db ++ [t1]) m gw2 tid2 eid2 t1
    hlk
  rw [hdb1, hdup]
  refine ⟨?_, rfl, rfl, ?_⟩
  · rw [countKey_append db t1 (idemKey m.order_id), hc0]
    simp [ht1]
  · by_cases hs : gw1.success <;> simp [ht1, hs]

/-- C3 witness: a concrete fresh `payment.requested` followed by its exact
duplicate ends with one transaction row and a re-emitted
`payment.processed` carrying the stored id and amount. -/
theorem payment_requested_idempotent_witness :
    lookupTransaction [] (idemKey 7) = none ∧
    countKey (handlePaymentRequested
        (handlePaymentRequested [] ⟨1, 7, 9, 7, 8, 250, "USD"⟩
          ⟨true, none⟩ 50 51).db
        ⟨1, 7, 9, 7, 8, 250, "USD"⟩ ⟨true, none⟩ 60 61).db
      (idemKey 7) = 1 ∧
    (handlePaymentRequested
        (handlePaymentRequested [] ⟨1, 7, 9, 7, 8, 250, "USD"⟩
          ⟨true, none⟩ 50 51).db
        ⟨1, 7, 9, 7, 8, 250, "USD"⟩ ⟨true, none⟩ 60 61).outbox.map
      Event.data =
      [EventData.paymentProcessed 7 50 250 "USD"] := by
  have h := payment_requested_idempotent [] ⟨1, 7, 9, 7, 8, 250, "USD"⟩
    ⟨true, none⟩ ⟨true, none⟩ 50 51 60 61 rfl
  exact ⟨rfl, h.1, h.2.2.2⟩

theorem findReservationByIdOrder_eq {rs : List Reservation}
    {rid oid : UUID} {r : Reservation}
    (h : findReservationByIdOrder rs rid oid = some r) :
    r.id = rid ∧ r.order_id = oid := by
  induction rs with
  | nil => simp [findReservationByIdOrder] at h
  | cons x rest ih =>
    by_cases hx : x.id = rid ∧ x.order_id = oid
    · simp [findReservationByIdOrder, hx] at h
      simpa [← h]
    · simp [findReservationByIdOrder, hx] at h
      exact ih h

theorem handleReleaseInventory_released (db : InvDB)
    (m : InventoryReleasedMsg) (now : Nat) (r : Reservation)
    (h : findReservationByIdOrder db.reservations m.reservation_id
      m.order_id = some r)
    (hrel : r.status = ReservationStatus.released) :
    handleReleaseInventory db m now = (db, []) := by
  simp [handleReleaseInventory, h, hrel]

/-- C7: releasing a reservation that is not yet released puts every
reserved quantity back (`available += q`, `reserved -= q` per product),
marks the reservation released with a `released_at` stamp, and emits no
reply; delivering the same `inventory.released` again finds the released
status and changes nothing, emitting no reply either. -/
theorem release_idempotent (db : InvDB) (m : InventoryReleasedMsg)
    (now1 now2 : Nat) (pid : UUID) (r : Reservation)
    (h : findReservationByIdOrder db.reservations m.reservation_id
      m.order_id = some r)
    (hact : r.status ≠ ReservationStatus.released) :
    (handleReleaseInventory db m now1).2 = [] ∧
    (handleReleaseInventory (handleReleaseInventory db m now1).1 m
      now2).2 = [] ∧
    (handleReleaseInventory (handleReleaseInventory db m now1).1 m
      now2).1 = (handleReleaseInventory db m now1).1 ∧
    availQty (handleReleaseInventory db m now1).1.products pid =
      (availQty db.products pid).map (· + requestedQty r.items pid) ∧
    reservedQty (handleReleaseInventory db m now1).1.products pid =
      (reservedQty db.products pid).map (· - requestedQty r.items pid) ∧
    findReservationByIdOrder
        (handleReleaseInventory db m now1).1.reservations
        m.reservation_id m.order_id =
      some { r with
        status := ReservationStatus.released
        released_at := some now1 } := by
  obtain ⟨hid, hord⟩ := findReservationByIdOrder_eq h
  have hdb1 : handleReleaseInventory db m now1 =
      (⟨releaseAll db.products r.items,
        db.reservations.map fun x =>
          if x.id = m.reservation_id ∧ x.order_id = m.order_id then
            { r with
              status := ReservationStatus.released
              released_at := some now1 }
          else x⟩, []) := by
    simp [handleReleaseInventory, h, hact]
  have hlk2 : findReservationByIdOrder
      (handleReleaseInventory db m now1).1.reservations
      m.reservation_id m.order_id =
      some { r with
        status := ReservationStatus.released
        released_at := some now1 } := by
    rw [hdb1]
    exact findReservationByIdOrder_update _ h hid hord
  have hrel2 := handleReleaseInventory_released
    (handleReleaseInventory db m now1).1 m now2 _ hlk2 rfl
  refine ⟨by rw [hdb1], ?_, ?_, ?_, ?_, hlk2⟩
  · rw [hrel2]
  · rw [hrel2]
  · rw [hdb1]
    exact availQty_releaseAll db.products r.items pid
  · rw [hdb1]
    exact reservedQty_releaseAll db.products r.items pid

/-- C7 witness: a concrete active reservation of 2 units is released once
(quantities restored, status released), and a duplicate release leaves the
state fixed with no reply in either run. -/
theorem release_idempotent_witness :
    findReservationByIdOrder
      [⟨11, 10, 30, .active, [⟨5, 2⟩], none⟩] 11 10 =
      some ⟨11, 10, 30, .active, [⟨5, 2⟩], none⟩ ∧
    availQty (handleReleaseInventory
        ⟨[⟨5, 100, 8, 2⟩], [⟨11, 10, 30, .active, [⟨5, 2⟩], none⟩]⟩
        ⟨3, 10, 30, 10, 11⟩ 77).1.products 5 = some 10 ∧
    (handleReleaseInventory (handleReleaseInventory
        ⟨[⟨5, 100, 8, 2⟩], [⟨11, 10, 30, .active, [⟨5, 2⟩], none⟩]⟩
        ⟨3, 10, 30, 10, 11⟩ 77).1 ⟨3, 10, 30, 10, 11⟩ 78).1 =
      (handleReleaseInventory
        ⟨[⟨5, 100, 8, 2⟩], [⟨11, 10, 30, .active, [⟨5, 2⟩], none⟩]⟩
        ⟨3, 10, 30, 10, 11⟩ 77).1 := by
  have h := release_idempotent
    ⟨[⟨5, 100, 8, 2⟩], [⟨11, 10, 30, .active, [⟨5, 2⟩], none⟩]⟩
    ⟨3, 10, 30, 10, 11⟩ 77 78 5
    ⟨11, 10, 30, .active, [⟨5, 2⟩], none⟩ (by decide) (by decide)
  refine ⟨by decide, ?_, h.2.2.1⟩
  rw [h.2.2.2.1]
  decide

/-- C6: for an `inventory.reserve.requested` with no existing reservation
for the order, an availability failure (missing product or
`available_quantity < quantity`) leaves the database untouched and emits
`inventory.reserve.failed` listing every unavailable item with its
requested and available quantities; otherwise each requested quantity
moves from `available_quantity` to `reserved_quantity`, an active
reservation is inserted, and `inventory.reserved` is emitted.  The final
conjunct is the boundary: a request for exactly `available_quantity`
passes the availability check and one more unit fails it. -/
theorem inventory_reserve_behavior (db : InvDB)
    (m : InventoryReserveRequestedMsg)
    (freshReservationId freshEventId : UUID) (pid bpid : UUID)
    (bps : List Product) (bp : Product)
    (h : findReservationByOrder db.reservations m.order_id = none) :
    (unavailableItems db.products m.items ≠ [] →
      (handleReserveRequested db m freshReservationId freshEventId).1 =
        db ∧
      (handleReserveRequested db m freshReservationId
          freshEventId).2.map Event.data =
        [EventData.inventoryReserveFailed m.order_id
          "Insufficient inventory" (unavailableItems db.products
            m.items)]) ∧
    (unavailableItems db.products m.items = [] →
      (handleReserveRequested db m freshReservationId
          freshEventId).2.map Event.data =
        [EventData.inventoryReserved m.order_id freshReservationId
          m.items] ∧
      findReservationByOrder (handleReserveRequested db m
          freshReservationId freshEventId).1.reservations m.order_id =
        some ⟨freshReservationId, m.order_id, m.correlation_id,
          ReservationStatus.active, m.items, none⟩ ∧
      availQty (handleReserveRequested db m freshReservationId
          freshEventId).1.products pid =
        (availQty db.products pid).map (· - requestedQty m.items pid) ∧
      reservedQty (handleReserveRequested db m freshReservationId
          freshEventId).1.products pid =
        (reservedQty db.products pid).map
          (· + requestedQty m.items pid)) ∧
    (findProduct bps bpid = some bp →
      unavailableItems bps [⟨bpid, bp.available_quantity⟩] = [] ∧
      unavailableItems bps [⟨bpid, bp.available_quantity + 1⟩] ≠ []) := by
  refine ⟨fun hne => ?_, fun hemp => ?_, fun hbp => ?_⟩
  · have hne' : ¬ (unavailableItems db.products m.items).isEmpty := by
      simpa [List.isEmpty_iff] using hne
    constructor
    · simp [handleReserveRequested, h, hne']
    · simp [handleReserveRequested, h, hne']
  · have hemp' : (unavailableItems db.products m.items).isEmpty := by
      simp [List.isEmpty_iff, hemp]
    refine ⟨by simp [handleReserveRequested, h, hemp'], ?_, ?_, ?_⟩
    · have : (handleReserveRequested db m freshReservationId
          freshEventId).1.reservations =
          db.reservations ++ [⟨freshReservationId, m.order_id,
            m.correlation_id, ReservationStatus.active, m.items, none⟩] :=
        by simp [handleReserveRequested, h, hemp']
      rw [this, findReservationByOrder_append_none _ h]
      simp
    · have : (handleReserveRequested db m freshReservationId
          freshEventId).1.products = reserveAll db.products m.items := by
        simp [handleReserveRequested, h, hemp']
      rw [this]
      exact availQty_reserveAll db.products m.items pid
    · have : (handleReserveRequested db m freshReservationId
          freshEventId).1.products = reserveAll db.products m.items := by
        simp [handleReserveRequested, h, hemp']
      rw [this]
      exact reservedQty_reserveAll db.products m.items pid
  · constructor
    · simp [unavailableItems, hbp]
    · simp [unavailableItems, hbp]

/-- C6 witness: on a stock of 10 units, reserving exactly 10 succeeds
(quantities move to reserved, an active reservation appears) and reserving
11 fails with the unavailable-item report, changing nothing. -/
theorem inventory_reserve_behavior_witness :
    findReservationByOrder ([] : List Reservation) 10 = none ∧
    availQty (handleReserveRequested ⟨[⟨5, 100, 10, 0⟩], []⟩
        ⟨1, 10, 30, 10, [⟨5, 10⟩]⟩ 11 12).1.products 5 = some 0 ∧
    reservedQty (handleReserveRequested ⟨[⟨5, 100, 10, 0⟩], []⟩
        ⟨1, 10, 30, 10, [⟨5, 10⟩]⟩ 11 12).1.products 5 = some 10 ∧
    (handleReserveRequested ⟨[⟨5, 100, 10, 0⟩], []⟩
        ⟨1, 10, 30, 10, [⟨5, 10⟩]⟩ 11 12).2.map Event.data =
      [EventData.inventoryReserved 10 11 [⟨5, 10⟩]] ∧
    (handleReserveRequested ⟨[⟨5, 100, 10, 0⟩], []⟩
        ⟨1, 10, 30, 10, [⟨5, 11⟩]⟩ 11 12).1 = ⟨[⟨5, 100, 10, 0⟩], []⟩ ∧
    (handleReserveRequested ⟨[⟨5, 100, 10, 0⟩], []⟩
        ⟨1, 10, 30, 10, [⟨5, 11⟩]⟩ 11 12).2.map Event.data =
      [EventData.inventoryReserveFailed 10 "Insufficient inventory"
        [⟨5, 11, 10⟩]] := by
  have hok := inventory_reserve_behavior ⟨[⟨5, 100, 10, 0⟩], []⟩
    ⟨1, 10, 30, 10, [⟨5, 10⟩]⟩ 11 12 5 5 [⟨5, 100, 10, 0⟩]
    ⟨5, 100, 10, 0⟩ rfl
  have hfail := inventory_reserve_behavior ⟨[⟨5, 100, 10, 0⟩], []⟩
    ⟨1, 10, 30, 10, [⟨5, 11⟩]⟩ 11 12 5 5 [⟨5, 100, 10, 0⟩]
    ⟨5, 100, 10, 0⟩ rfl
  obtain ⟨-, hsucc, -⟩ := hok
  obtain ⟨hf, -, -⟩ := hfail
  have hs := hsucc (by decide)
  have hfl := hf (by decide)
  refine ⟨rfl, ?_, ?_, hs.1, hfl.1, ?_⟩
  · rw [hs.2.2.1]; decide
  · rw [hs.2.2.2]; decide
  · rw [hfl.2]; decide

theorem handleInventoryReserved_found (db : OrdersDB)
    (m : InventoryReservedMsg) (f : UUID) (o : Order)
    (h : getOrder db m.order_id = some o) :
    handleInventoryReserved db m f =
      ⟨updateOrder db m.order_id { o with
          status := OrderStatus.inventory_reserved
          reservation_id := some m.reservation_id
          current_saga_step := SagaStep.payment_processing },
        [{ event_id := f
           aggregate_id := o.id
           correlation_id := m.correlation_id
           causation_id := some m.event_id
           data := .paymentRequested o.id o.customer_id o.total_amount }],
        [⟨o.id, m.correlation_id, "inventory_reservation",
          .inventoryReserved, m.event_id, "completed", none⟩,
         ⟨o.id, m.correlation_id, "payment_processing", .paymentRequested,
          f, "started", none⟩]⟩ := by
  simp [handleInventoryReserved, h]

theorem handlePaymentProcessed_found (db : OrdersDB)
    (m : PaymentProcessedMsg) (f : UUID) (o : Order)
    (h : getOrder db m.order_id = some o) :
    handlePaymentProcessed db m f =
      ⟨updateOrder db m.order_id { o with
          status := OrderStatus.confirmed
          transaction_id := some m.transaction_id
          current_saga_step := SagaStep.order_confirmation },
        [{ event_id := f
           aggregate_id := o.id
           correlation_id := m.correlation_id
           causation_id := some m.event_id
           data := .orderConfirmed o.id }],
        [⟨o.id, m.correlation_id, "payment_processing", .paymentProcessed,
          m.event_id, "completed", none⟩,
         ⟨o.id, m.correlation_id, "order_confirmation", .orderConfirmed,
          f, "completed", none⟩]⟩ := by
  simp [handlePaymentProcessed, h]

/-- Boolean check that every event of a batch carries the given
correlation id and the given causation id. -/
def emittedOk (out : List Event) (corr : UUID) (cause : UUID) : Bool :=
  out.all fun e =>
    e.correlation_id == corr && e.causation_id == some cause

/-- C9: every outbox event written by an orchestrator handler or a
participant handler in response to a triggering event carries the
triggering event's correlation id — hence the order's, since along the
saga the triggering event carries the order's correlation id (hypothesis
`hoc`) — and the triggering event's id as causation; the initial
`order.placed` carries the new order's correlation id and no causation,
and the companion `inventory.reserve.requested` is caused by it. -/
theorem causation_correlation_discipline (dbOrc dbOrc2 dbOrc3 dbOrc4 :
      OrdersDB)
    (mi : InventoryReservedMsg) (mif : InventoryReserveFailedMsg)
    (mp : PaymentProcessedMsg) (mf : PaymentFailedMsg)
    (inv : InvDB) (mrr : InventoryReserveRequestedMsg)
    (pay : PayDB) (mpr : PaymentRequestedMsg) (gw : GatewayResult)
    (f1 f2 f3 f4 f5 r1 r2 t1 e1 : UUID)
    (req : CreateOrderRequest) (oid cid pid rid : UUID) (o : Order)
    (ho : getOrder dbOrc mi.order_id = some o)
    (hoc : o.correlation_id = mi.correlation_id) :
    emittedOk (handleInventoryReserved dbOrc mi f1).outbox
      mi.correlation_id mi.event_id = true ∧
    emittedOk (handleInventoryReserved dbOrc mi f1).outbox
      o.correlation_id mi.event_id = true ∧
    emittedOk (handleInventoryReserveFailed dbOrc2 mif f2).outbox
      mif.correlation_id mif.event_id = true ∧
    emittedOk (handlePaymentProcessed dbOrc3 mp f3).outbox
      mp.correlation_id mp.event_id = true ∧
    emittedOk (handlePaymentFailed dbOrc4 mf f4 f5).outbox
      mf.correlation_id mf.event_id = true ∧
    emittedOk (handleReserveRequested inv mrr r1 r2).2
      mrr.correlation_id mrr.event_id = true ∧
    emittedOk (handlePaymentRequested pay mpr gw t1 e1).outbox
      mpr.correlation_id mpr.event_id = true ∧
    ((createOrder req oid cid pid rid).outbox.map fun e =>
      (e.correlation_id, e.causation_id)) =
      [(cid, none), (cid, some pid)] ∧
    (createOrder req oid cid pid rid).order.correlation_id = cid := by
  have hbase :
      emittedOk (handleInventoryReserved dbOrc mi f1).outbox
        mi.correlation_id mi.event_id = true := by
    rw [handleInventoryReserved_found dbOrc mi f1 o ho]
    simp [emittedOk]
  refine ⟨hbase, by rw [hoc]; exact hbase, ?_, ?_, ?_, ?_, ?_, ?_, rfl⟩
  · cases hg : getOrder dbOrc2 mif.order_id <;>
      simp [handleInventoryReserveFailed, hg, emittedOk]
  · cases hg : getOrder dbOrc3 mp.order_id <;>
      simp [handlePaymentProcessed, hg, emittedOk]
  · cases hg : getOrder dbOrc4 mf.order_id with
    | none => simp [handlePaymentFailed, hg, emittedOk]
    | some ord =>
      cases hr : ord.reservation_id <;>
        simp [handlePaymentFailed, hg, hr, emittedOk]
  · cases hg : findReservationByOrder inv.reservations mrr.order_id with
    | none =>
      by_cases he : (unavailableItems inv.products mrr.items).isEmpty <;>
        simp [handleReserveRequested, hg, he, emittedOk]
    | some r => simp [handleReserveRequested, hg, emittedOk]
  · cases hg : lookupTransaction pay (idemKey mpr.order_id) with
    | none =>
      by_cases hs : gw.success <;>
        simp [handlePaymentRequested, hg, hs, emittedOk]
    | some t =>
      by_cases hc : t.status = TransactionStatus.completed
      · simp [handlePaymentRequested, hg, hc, emittedOk]
      · by_cases hf : t.status = TransactionStatus.failed <;>
          simp [handlePaymentRequested, hg, hc, hf, emittedOk]
  · simp [createOrder, startOrderSaga]

/-- C9 witness: concrete runs of the reserved-reply handler and of order
creation show the correlation/causation discipline on explicit events. -/
theorem causation_correlation_discipline_witness :
    emittedOk (handleInventoryReserved
        [⟨10, 20, .pending, .inventory_reservation, [], 100, 30, none,
          none, none⟩]
        ⟨2, 10, 30, 10, 11, [⟨5, 2⟩]⟩ 41).outbox 30 2 = true ∧
    ((createOrder ⟨20, [⟨5, 2, 50⟩], [], []⟩ 10 30 41 42).outbox.map
      fun e => (e.correlation_id, e.causation_id)) =
      [(30, none), (30, some 41)] := by
  have h := causation_correlation_discipline
    [⟨10, 20, .pending, .inventory_reservation, [], 100, 30, none, none,
      none⟩] [] [] []
    ⟨2, 10, 30, 10, 11, [⟨5, 2⟩]⟩ ⟨2, 10, 30, 10, "r", []⟩
    ⟨2, 10, 30, 10, 11, 100⟩ ⟨2, 10, 30, 10, "r"⟩
    ⟨[], []⟩ ⟨2, 10, 30, 10, []⟩ [] ⟨2, 10, 30, 10, 20, 100, "USD"⟩
    ⟨true, none⟩ 41 42 43 44 45 46 47 48 49
    ⟨20, [⟨5, 2, 50⟩], [], []⟩ 10 30 41 42
    ⟨10, 20, .pending, .inventory_reservation, [], 100, 30, none, none,
      none⟩ (by decide) rfl
  exact ⟨h.1, h.2.2.2.2.2.2.2.1⟩

/-- C1 counterexample: delivering the same `inventory.reserved` reply a
second time makes the orchestrator write a further `payment.requested` to
the outbox — the second delivery's outbox batch is not empty, so the
handler neither guards on the order's source state nor ignores the
duplicate. -/
theorem duplicate_reply_counterexample :
    (handleInventoryReserved
      (handleInventoryReserved
        [⟨10, 20, .pending, .inventory_reservation, [], 100, 30, none,
          none, none⟩]
        ⟨2, 10, 30, 10, 11, [⟨5, 2⟩]⟩ 41).db
      ⟨2, 10, 30, 10, 11, [⟨5, 2⟩]⟩ 42).outbox ≠ [] := by
  decide

/-- C1 amended: the orchestrator reply handlers run the transition
unconditionally on every delivery.  A duplicate of the same reply event
leaves the order row unchanged — status, reservation_id and
transaction_id are re-assigned the values they already hold — but the
handler emits the same downstream outbox events again (fresh event ids,
identical payloads): duplicates are re-applied, not ignored, and there is
no source-state guard. -/
theorem duplicate_reply_reapplied (dbA : OrdersDB)
    (mA : InventoryReservedMsg) (fA1 fA2 : UUID) (oA : Order)
    (dbB : OrdersDB) (mB : PaymentProcessedMsg) (fB1 fB2 : UUID)
    (oB : Order)
    (hA : getOrder dbA mA.order_id = some oA)
    (hB : getOrder dbB mB.order_id = some oB) :
    getOrder (handleInventoryReserved
        (handleInventoryReserved dbA mA fA1).db mA fA2).db mA.order_id =
      getOrder (handleInventoryReserved dbA mA fA1).db mA.order_id ∧
    (handleInventoryReserved (handleInventoryReserved dbA mA fA1).db mA
        fA2).outbox.map Event.data =
      (handleInventoryReserved dbA mA fA1).outbox.map Event.data ∧
    (handleInventoryReserved (handleInventoryReserved dbA mA fA1).db mA
        fA2).outbox ≠ [] ∧
    getOrder (handlePaymentProcessed
        (handlePaymentProcessed dbB mB fB1).db mB fB2).db mB.order_id =
      getOrder (handlePaymentProcessed dbB mB fB1).db mB.order_id ∧
    (handlePaymentProcessed (handlePaymentProcessed dbB mB fB1).db mB
        fB2).outbox.map Event.data =
      (handlePaymentProcessed dbB mB fB1).outbox.map Event.data ∧
    (handlePaymentProcessed (handlePaymentProcessed dbB mB fB1).db mB
        fB2).outbox ≠ [] := by
  have hidA : oA.id = mA.order_id := getOrder_eq_id hA
  have hidB : oB.id = mB.order_id := getOrder_eq_id hB
  have hg1A : getOrder (handleInventoryReserved dbA mA fA1).db
      mA.order_id = some { oA with
        status := OrderStatus.inventory_reserved
        reservation_id := some mA.reservation_id
        current_saga_step := SagaStep.payment_processing } := by
    rw [handleInventoryReserved_found dbA mA fA1 oA hA]
    exact getOrder_update _ hA hidA
  have hg1B : getOrder (handlePaymentProcessed dbB mB fB1).db
      mB.order_id = some { oB with
        status := OrderStatus.confirmed
        transaction_id := some mB.transaction_id
        current_saga_step := SagaStep.order_confirmation } := by
    rw [handlePaymentProcessed_found dbB mB fB1 oB hB]
    exact getOrder_update _ hB hidB
  refine ⟨?_, ?_, ?_, ?_, ?_, ?_⟩
  · rw [handleInventoryReserved_found _ mA fA2 _ hg1A, hg1A]
    exact getOrder_update _ hg1A hidA
  · rw [handleInventoryReserved_found _ mA fA2 _ hg1A,
      handleInventoryReserved_found dbA mA fA1 oA hA]
    simp
  · rw [handleInventoryReserved_found _ mA fA2 _ hg1A]
    simp
  · rw [handlePaymentProcessed_found _ mB fB2 _ hg1B, hg1B]
    exact getOrder_update _ hg1B hidB
  · rw [handlePaymentProcessed_found _ mB fB2 _ hg1B,
      handlePaymentProcessed_found dbB mB fB1 oB hB]
    simp
  · rw [handlePaymentProcessed_found _ mB fB2 _ hg1B]
    simp

/-- C1 amended witness: a concrete duplicated `inventory.reserved` leaves
the order row fixed while writing a second `payment.requested` with the
same payload. -/
theorem duplicate_reply_reapplied_witness :
    getOrder (handleInventoryReserved
        (handleInventoryReserved
          [⟨10, 20, .pending, .inventory_reservation, [], 100, 30, none,
            none, none⟩]
          ⟨2, 10, 30, 10, 11, [⟨5, 2⟩]⟩ 41).db
        ⟨2, 10, 30, 10, 11, [⟨5, 2⟩]⟩ 42).db 10 =
      getOrder (handleInventoryReserved
        [⟨10, 20, .pending, .inventory_reservation, [], 100, 30, none,
          none, none⟩]
        ⟨2, 10, 30, 10, 11, [⟨5, 2⟩]⟩ 41).db 10 ∧
    (handleInventoryReserved
        (handleInventoryReserved
          [⟨10, 20, .pending, .inventory_reservation, [], 100, 30, none,
            none, none⟩]
          ⟨2, 10, 30, 10, 11, [⟨5, 2⟩]⟩ 41).db
        ⟨2, 10, 30, 10, 11, [⟨5, 2⟩]⟩ 42).outbox.map Event.data =
      [EventData.paymentRequested 10 20 100] := by
  have h := duplicate_reply_reapplied
    [⟨10, 20, .pending, .inventory_reservation, [], 100, 30, none, none,
      none⟩]
    ⟨2, 10, 30, 10, 11, [⟨5, 2⟩]⟩ 41 42
    ⟨10, 20, .pending, .inventory_reservation, [], 100, 30, none, none,
      none⟩
    [⟨10, 20, .pending, .inventory_reservation, [], 100, 30, none, none,
      none⟩]
    ⟨2, 10, 30, 10, 11, 100⟩ 41 42
    ⟨10, 20, .pending, .inventory_reservation, [], 100, 30, none, none,
      none⟩ (by decide) (by decide)
  refine ⟨h.1, ?_⟩
  rw [h.2.1]
  decide

/-- C2 counterexample: a `POST /orders` body with an empty items list is
not rejected — pydantic validation accepts it, and the endpoint creates an
order and writes the two saga-starting events (`order.placed`,
`inventory.reserve.requested`) to the outbox. -/
theorem zero_item_order_counterexample :
    validateCreateOrder ⟨some 20, some [], some [], some []⟩ =
      Except.ok ⟨20, [], [], []⟩ ∧
    (createOrder ⟨20, [], [], []⟩ 10 30 41 42).outbox.map
      (fun e => e.data.etype) =
      [EventType.orderPlaced, EventType.inventoryReserveRequested] :=
  ⟨rfl, by decide⟩

/-- C2 amended: a `POST /orders` request whose items list is empty passes
HTTP validation (the `items` field of `CreateOrderRequest` carries no
minimum-length constraint); an Order row with `total_amount = 0` and
status pending is created and the saga is started by writing
`order.placed` and `inventory.reserve.requested` to the outbox. -/
theorem zero_item_order_accepted (raw : RawOrderRequest) (c : UUID)
    (sa pm : List (String × String)) (oid cid pid rid : UUID)
    (h1 : raw.customer_id = some c) (h2 : raw.items = some [])
    (h3 : raw.shipping_address = some sa)
    (h4 : raw.payment_method = some pm) :
    validateCreateOrder raw = Except.ok ⟨c, [], sa, pm⟩ ∧
    (createOrder ⟨c, [], sa, pm⟩ oid cid pid rid).order.total_amount =
      0 ∧
    (createOrder ⟨c, [], sa, pm⟩ oid cid pid rid).order.status =
      OrderStatus.pending ∧
    (createOrder ⟨c, [], sa, pm⟩ oid cid pid rid).outbox.map
      (fun e => e.data.etype) =
      [EventType.orderPlaced, EventType.inventoryReserveRequested] := by
  obtain ⟨rc, ri, rs, rp⟩ := raw
  simp only at h1 h2 h3 h4
  subst h1 h2 h3 h4
  refine ⟨rfl, rfl, rfl, ?_⟩
  simp [createOrder, startOrderSaga, EventData.etype]

/-- C2 amended witness: a concrete empty-items request validates and
starts a saga on a zero-amount order. -/
theorem zero_item_order_accepted_witness :
    (⟨some 20, some [], some [], some []⟩ :
      RawOrderRequest).customer_id = some 20 ∧
    validateCreateOrder ⟨some 20, some [], some [], some []⟩ =
      Except.ok ⟨20, [], [], []⟩ ∧
    (createOrder ⟨20, [], [], []⟩ 10 30 41 42).order.total_amount = 0 := by
  have h := zero_item_order_accepted ⟨some 20, some [], some [], some []⟩
    20 [] [] 10 30 41 42 rfl rfl rfl rfl
  exact ⟨rfl, h.1, h.2.1⟩
